import Mathlib

/-!
# Verification of the ember-mug BLE protocol client

Shallow embedding of `src/lib/bluetooth.ts` (class `BluetoothManager`),
`src/lib/types.ts`, and the mock device simulator (`MockBluetoothManager`).

Modelling conventions:
* JavaScript numbers are modelled as exact rationals (`ℚ`); buffer bytes as `ℕ`.
* A BLE device is a `Device`: `hasChar` says which characteristics were
  discovered, `read c` is the payload a read of `c` yields (`none` models both
  "characteristic missing" and "read error", which the code collapses by
  resolving `null`), and `writeOk` says whether a transport write is accepted.
* Each manager operation returns the updated `MugState` together with a trace
  of the I/O and event actions it performed (`Op`), so that claims about
  "which reads happen" and "what is emitted" are statements about the trace.
* Fallible operations return `Except String _` mirroring `throw`.
-/

namespace EmberMug

/-- The Ember GATT characteristics from `EMBER_CHARACTERISTICS` in
`src/lib/types.ts`, named by their logical field. -/
inductive CharId where
  | mugName
  | currentTemp
  | targetTemp
  | tempUnit
  | battery
  | liquidState
  | firmware
  | mugId
  | dsk
  | udsk
  | pushEvents
  | ledColor
deriving DecidableEq, Repr

/-- `RGBColor` from `src/lib/types.ts`: four 0–255 components. -/
structure RGBColor where
  r : ℕ
  g : ℕ
  b : ℕ
  a : ℕ
deriving DecidableEq, Repr

/-- `MugState` from `src/lib/types.ts`, as held by `BluetoothManager.state`.
`liquidState` and `temperatureUnit` are kept as raw numeric enum values,
exactly as the code stores the bytes it reads. -/
structure MugState where
  connected : Bool
  batteryLevel : ℕ
  isCharging : Bool
  currentTemp : ℚ
  targetTemp : ℚ
  liquidState : ℕ
  temperatureUnit : ℕ
  color : RGBColor
  mugName : String
deriving DecidableEq, Repr

/-- The initial state assigned in the `BluetoothManager` field initializer:
`LiquidState.Empty = 1`, `TemperatureUnit.Celsius = 0`, white color. -/
def initialState : MugState :=
  { connected := false
    batteryLevel := 0
    isCharging := false
    currentTemp := 0
    targetTemp := 0
    liquidState := 1
    temperatureUnit := 0
    color := { r := 255, g := 255, b := 255, a := 255 }
    mugName := "" }

/-- The numeric values of the `LiquidState` enum
(`Empty = 1, Filling = 2, Cooling = 4, Heating = 5, StableTemperature = 6`);
`Object.values(LiquidState).includes(x)` for a numeric `x` tests exactly
membership in this set. -/
def liquidStateValues : List ℕ := [1, 2, 4, 5, 6]

/-- `MIN_TEMP_CELSIUS` from `src/lib/types.ts`. -/
def MIN_TEMP_CELSIUS : ℚ := 50

/-- `MAX_TEMP_CELSIUS` from `src/lib/types.ts`. -/
def MAX_TEMP_CELSIUS : ℚ := 63

/-- A connected BLE peripheral as the manager observes it. -/
structure Device where
  hasChar : CharId → Bool
  read : CharId → Option (List ℕ)
  writeOk : CharId → List ℕ → Bool

/-- One observable action of the manager: a characteristic read, a
characteristic write (with payload), a timed wait, a `stateChange`
broadcast, or an `error` event. -/
inductive Op where
  | readChar (c : CharId)
  | writeChar (c : CharId) (data : List ℕ)
  | sleep (ms : ℕ)
  | emitState
  | emitError
deriving DecidableEq, Repr

/-- `readCharacteristic(uuid)`: `null` when the characteristic is absent,
otherwise the device's answer (`null` on a read error, folded into
`Device.read`). -/
def readCharacteristic (d : Device) (c : CharId) : Option (List ℕ) :=
  if d.hasChar c then d.read c else none

/-- `writeCharacteristic(uuid, data)`: throws when the characteristic is
absent, rejects when the transport write fails. -/
def writeCharacteristic (d : Device) (c : CharId) (data : List ℕ) :
    Except String Unit :=
  if ¬ d.hasChar c then
    .error "Characteristic not found for UUID"
  else if d.writeOk c data then
    .ok ()
  else
    .error "Write failed"

/-- `Buffer.readUInt16LE(0)`: little-endian 16-bit read of the first two
bytes. -/
def readUInt16LE (data : List ℕ) : ℕ :=
  data.getD 0 0 + 256 * data.getD 1 0

/-- `Math.round` on the nonnegative values this client produces:
round half up. -/
def jsRound (q : ℚ) : ℤ := ⌊q + 1 / 2⌋

/-- The temperature decode step shared by `readCurrentTemp` and
`readTargetTemp`: `data.readUInt16LE(0) * 0.01`. -/
def decodeTemp (data : List ℕ) : ℚ :=
  (readUInt16LE data : ℚ) * (1 / 100)

/-- The temperature encode step of `setTargetTemp`:
`value = Math.round(t * 100)` written as a little-endian uint16
(`writeUInt16LE`). -/
def encodeTempBytes (t : ℚ) : List ℕ :=
  let value := (jsRound (t * 100)).toNat
  [value % 256, value / 256 % 256]

/-- The clamp in `setTargetTemp`:
`Math.max(MIN_TEMP_CELSIUS, Math.min(MAX_TEMP_CELSIUS, temp))`. -/
def clampTemp (t : ℚ) : ℚ :=
  max MIN_TEMP_CELSIUS (min MAX_TEMP_CELSIUS t)

/-- `readCurrentTemp()`: reads the current-temperature characteristic and,
when at least two bytes arrive, stores the decoded value and broadcasts. -/
def readCurrentTemp (s : MugState) (d : Device) : MugState × List Op :=
  match readCharacteristic d .currentTemp with
  | some data =>
      if 2 ≤ data.length then
        ({ s with currentTemp := decodeTemp data },
         [.readChar .currentTemp, .emitState])
      else (s, [.readChar .currentTemp])
  | none => (s, [.readChar .currentTemp])

/-- `readTargetTemp()`: reads the target-temperature characteristic and,
when at least two bytes arrive, stores the decoded value and broadcasts. -/
def readTargetTemp (s : MugState) (d : Device) : MugState × List Op :=
  match readCharacteristic d .targetTemp with
  | some data =>
      if 2 ≤ data.length then
        ({ s with targetTemp := decodeTemp data },
         [.readChar .targetTemp, .emitState])
      else (s, [.readChar .targetTemp])
  | none => (s, [.readChar .targetTemp])

/-- `readBattery()`: byte 0 is the level, byte 1 the charging flag. -/
def readBattery (s : MugState) (d : Device) : MugState × List Op :=
  match readCharacteristic d .battery with
  | some data =>
      if 2 ≤ data.length then
        ({ s with batteryLevel := data.getD 0 0,
                  isCharging := data.getD 1 0 == 1 },
         [.readChar .battery, .emitState])
      else (s, [.readChar .battery])
  | none => (s, [.readChar .battery])

/-- `readLiquidState()`: the raw byte is applied only when it is a value of
the `LiquidState` enum (`Object.values(LiquidState).includes(state)`);
otherwise the stored field is left unchanged and no error is raised. -/
def readLiquidState (s : MugState) (d : Device) : MugState × List Op :=
  match readCharacteristic d .liquidState with
  | some data =>
      if 1 ≤ data.length then
        let rawValue := data.getD 0 0
        if rawValue ∈ liquidStateValues then
          ({ s with liquidState := rawValue },
           [.readChar .liquidState, .emitState])
        else (s, [.readChar .liquidState])
      else (s, [.readChar .liquidState])
  | none => (s, [.readChar .liquidState])

/-- `readTemperatureUnit()`: the raw byte is stored unconditionally
(`this.state.temperatureUnit = data[0] as TemperatureUnit`) — the code
performs no known-value check here. -/
def readTemperatureUnit (s : MugState) (d : Device) : MugState × List Op :=
  match readCharacteristic d .tempUnit with
  | some data =>
      if 1 ≤ data.length then
        ({ s with temperatureUnit := data.getD 0 0 },
         [.readChar .tempUnit, .emitState])
      else (s, [.readChar .tempUnit])
  | none => (s, [.readChar .tempUnit])

/-- `readLedColor()`: four raw bytes become a fresh RGBA record. -/
def readLedColor (s : MugState) (d : Device) : MugState × List Op :=
  match readCharacteristic d .ledColor with
  | some data =>
      if 4 ≤ data.length then
        ({ s with color := { r := data.getD 0 0, g := data.getD 1 0,
                             b := data.getD 2 0, a := data.getD 3 0 } },
         [.readChar .ledColor, .emitState])
      else (s, [.readChar .ledColor])
  | none => (s, [.readChar .ledColor])

/-- The name-processing pipeline of `attemptPairing`:
`nameData.toString("utf8").replace(/\0/g, "").trim()`, modelled at the byte
level (each byte made a character, NUL bytes dropped, then trimmed). -/
def decodeMugName (data : List ℕ) : String :=
  (String.mk ((data.filter (· ≠ 0)).map Char.ofNat)).trim

/-- `attemptPairing()` (`src/lib/bluetooth.ts` lines 399–445): best-effort
reads of the mug-name, DSK and UDSK characteristics — each wrapped in
`try`/`catch`, so failures are tolerated — followed by a 500 ms delay.
A non-empty decoded name updates `state.mugName`; the DSK/UDSK payloads are
only logged. No characteristic is ever written here. -/
def attemptPairing (s : MugState) (d : Device) : MugState × List Op :=
  let afterName : MugState :=
    match readCharacteristic d .mugName with
    | some nameData =>
        let name := decodeMugName nameData
        if name ≠ "" then { s with mugName := name } else s
    | none => s
  (afterName,
   [.readChar .mugName, .readChar .dsk, .readChar .udsk, .sleep 500])

/-- The event codes `handlePushEvent` recognizes. -/
def recognizedPushCodes : List ℕ := [1, 2, 3, 4, 5, 8]

/-- `handlePushEvent(data)` (`src/lib/bluetooth.ts` lines 352–386):
dispatches on `data[0]` (`none` models `undefined` for an empty buffer,
which matches no `case`). Codes 1/4/5/8 trigger one targeted re-read;
codes 2/3 set the charging flag directly; anything else only logs. -/
def handlePushEvent (data : List ℕ) (s : MugState) (d : Device) :
    MugState × List Op :=
  match data.head? with
  | some 1 => readBattery s d
  | some 2 => ({ s with isCharging := true }, [.emitState])
  | some 3 => ({ s with isCharging := false }, [.emitState])
  | some 4 => readTargetTemp s d
  | some 5 => readCurrentTemp s d
  | some 8 => readLiquidState s d
  | _ => (s, [])

/-- The characteristic reads contained in a trace, in order. -/
def readsOf (ops : List Op) : List CharId :=
  ops.filterMap fun op =>
    match op with
    | .readChar c => some c
    | _ => none

/-- The characteristic writes contained in a trace, in order. -/
def writesOf (ops : List Op) : List (CharId × List ℕ) :=
  ops.filterMap fun op =>
    match op with
    | .writeChar c data => some (c, data)
    | _ => none

/-- `setTargetTemp(temp)` (`src/lib/bluetooth.ts` lines 584–611): clamp to
`[MIN_TEMP_CELSIUS, MAX_TEMP_CELSIUS]`, encode `Math.round(clamped * 100)`
as little-endian uint16, write it, re-read the target temperature, and
throw when the echoed value differs from the clamped request by more
than 0.5 °C. -/
def setTargetTemp (temp : ℚ) (s : MugState) (d : Device) :
    Except String (MugState × List Op) :=
  let clampedTemp := clampTemp temp
  let buffer := encodeTempBytes clampedTemp
  match writeCharacteristic d .targetTemp buffer with
  | .error e => .error e
  | .ok _ =>
      let (s1, ops1) := readTargetTemp s d
      if |s1.targetTemp - clampedTemp| > 1 / 2 then
        .error "Temperature write succeeded but value didn't change"
      else
        .ok (s1, .writeChar .targetTemp buffer :: ops1)

/-- `setTemperatureUnit(unit)` (`src/lib/bluetooth.ts` lines 613–627): write
the unit byte, re-read, and throw when the echoed unit differs. -/
def setTemperatureUnit (unit : ℕ) (s : MugState) (d : Device) :
    Except String (MugState × List Op) :=
  let buffer := [unit]
  match writeCharacteristic d .tempUnit buffer with
  | .error e => .error e
  | .ok _ =>
      let (s1, ops1) := readTemperatureUnit s d
      if s1.temperatureUnit ≠ unit then
        .error "Temperature unit write succeeded but value didn't change"
      else
        .ok (s1, .writeChar .tempUnit buffer :: ops1)

/-- `setLedColor(color)` (`src/lib/bluetooth.ts` lines 629–653): write the
four RGBA bytes, re-read, and throw when the echoed red, green or blue
component differs from the request — alpha is deliberately excluded from
the comparison, since the mug may adjust it. -/
def setLedColor (color : RGBColor) (s : MugState) (d : Device) :
    Except String (MugState × List Op) :=
  let buffer := [color.r, color.g, color.b, color.a]
  match writeCharacteristic d .ledColor buffer with
  | .error e => .error e
  | .ok _ =>
      let (s1, ops1) := readLedColor s d
      if s1.color.r ≠ color.r ∨ s1.color.g ≠ color.g ∨ s1.color.b ≠ color.b then
        .error "LED color write succeeded but value didn't change"
      else
        .ok (s1, .writeChar .ledColor buffer :: ops1)

/-- A device whose transport accepts every write but whose state never
changes: every read of the LED color returns the fixed stored color `c0`,
regardless of what was written — the spec's "simulated device that never
applies writes". -/
def neverApplyDevice (c0 : RGBColor) : Device :=
  { hasChar := fun _ => true
    writeOk := fun _ _ => true
    read := fun c =>
      if c = .ledColor then some [c0.r, c0.g, c0.b, c0.a] else none }

/-- The outcome of one `connectWithRetry` run: how many `connect()` attempts
were made, which backoff delays (in ms) were awaited between failed
attempts, how many `error` events were emitted, and whether a connection
was established. -/
structure RetryResult where
  attemptsMade : ℕ
  delays : List ℕ
  errorsEmitted : ℕ
  success : Bool
deriving DecidableEq, Repr

/-- The loop of `connectWithRetry`, processing the remaining attempt
numbers in order: on a successful `connect()` return at once; on a failure
wait `Math.pow(2, attempt - 1) * 1000` ms when the attempt was not the
last one; when the attempt list is exhausted, emit the single terminal
`error` event. `outcome n = true` means the `n`-th `connect()` call
succeeds. -/
def connectWithRetryGo (outcome : ℕ → Bool) (maxRetries : ℕ) :
    List ℕ → RetryResult
  | [] =>
      { attemptsMade := maxRetries, delays := [], errorsEmitted := 1,
        success := false }
  | attempt :: rest =>
      if outcome attempt then
        { attemptsMade := attempt, delays := [], errorsEmitted := 0,
          success := true }
      else
        let r := connectWithRetryGo outcome maxRetries rest
        if attempt < maxRetries then
          { r with delays := 2 ^ (attempt - 1) * 1000 :: r.delays }
        else r

/-- `connectWithRetry(maxRetries = 3)` (`src/lib/bluetooth.ts` lines
91–120): the `for (let attempt = 1; attempt <= maxRetries; attempt++)`
loop — sequential attempts `1, …, maxRetries`, exponential backoff between
failed attempts, exactly one terminal `error` event after all attempts
fail. -/
def connectWithRetry (maxRetries : ℕ) (outcome : ℕ → Bool) : RetryResult :=
  connectWithRetryGo outcome maxRetries ((List.range maxRetries).map (· + 1))

/-! ## Reference semantics of `getState()`

In the JavaScript runtime `this.state.color` is a reference to a heap
object. `getState()` returns `{ ...this.state }` — a new object whose
scalar fields are copied by value and whose `color` field copies the
reference. To reason about what a caller's mutations of the returned value
can reach, the state is modelled with the color held as an address into a
heap of `RGBColor` objects. -/

/-- A heap of RGBA objects, addressed by natural numbers. -/
def Heap : Type := ℕ → RGBColor

/-- The runtime representation of `BluetoothManager.state`: scalar fields
inline, the color as a reference into the heap. -/
structure StateRec where
  connected : Bool
  batteryLevel : ℕ
  isCharging : Bool
  currentTemp : ℚ
  targetTemp : ℚ
  liquidState : ℕ
  temperatureUnit : ℕ
  colorRef : ℕ
  mugName : String
deriving DecidableEq, Repr

/-- The state a caller observes through a representation: the color
reference resolved against the heap — this is the `MugState` value the
manager's record denotes. -/
def view (h : Heap) (m : StateRec) : MugState :=
  { connected := m.connected
    batteryLevel := m.batteryLevel
    isCharging := m.isCharging
    currentTemp := m.currentTemp
    targetTemp := m.targetTemp
    liquidState := m.liquidState
    temperatureUnit := m.temperatureUnit
    color := h m.colorRef
    mugName := m.mugName }

/-- `getState()` (`src/lib/bluetooth.ts` lines 655–657): the object spread
`{ ...this.state }` copies every own field by value — the scalars are
duplicated, the `color` field duplicates the *reference*, not the object
it points to. -/
def getStateCopy (m : StateRec) : StateRec :=
  { connected := m.connected
    batteryLevel := m.batteryLevel
    isCharging := m.isCharging
    currentTemp := m.currentTemp
    targetTemp := m.targetTemp
    liquidState := m.liquidState
    temperatureUnit := m.temperatureUnit
    colorRef := m.colorRef
    mugName := m.mugName }

/-- A mutation a caller can perform on the object `getState()` returned:
assigning one of its own fields (which only rewrites the copy — for
`color`, rebinding the copy's reference to some other object), or mutating
a component of the color object the copy currently points to (which writes
the shared heap object in place). -/
inductive CopyMutation where
  | setConnected (v : Bool)
  | setBatteryLevel (v : ℕ)
  | setIsCharging (v : Bool)
  | setCurrentTemp (v : ℚ)
  | setTargetTemp (v : ℚ)
  | setLiquidState (v : ℕ)
  | setTemperatureUnit (v : ℕ)
  | setMugName (v : String)
  | setColorObject (newRef : ℕ)
  | setColorR (v : ℕ)
  | setColorG (v : ℕ)
  | setColorB (v : ℕ)
  | setColorA (v : ℕ)

/-- Whether a mutation writes through the copy's color reference into the
shared heap object (a `copy.color.r = v` style assignment). -/
def CopyMutation.mutatesColorInPlace : CopyMutation → Bool
  | .setColorR _ => true
  | .setColorG _ => true
  | .setColorB _ => true
  | .setColorA _ => true
  | _ => false

/-- Heap update at one address. -/
def heapSet (h : Heap) (addr : ℕ) (c : RGBColor) : Heap :=
  fun n => if n = addr then c else h n

/-- Apply one caller mutation to the pair (heap, returned copy). Field
assignments touch only the copy; color-component assignments write the
heap cell the copy's reference designates. -/
def applyMutation (hm : Heap × StateRec) (mu : CopyMutation) :
    Heap × StateRec :=
  let (h, cpy) := hm
  match mu with
  | .setConnected v => (h, { cpy with connected := v })
  | .setBatteryLevel v => (h, { cpy with batteryLevel := v })
  | .setIsCharging v => (h, { cpy with isCharging := v })
  | .setCurrentTemp v => (h, { cpy with currentTemp := v })
  | .setTargetTemp v => (h, { cpy with targetTemp := v })
  | .setLiquidState v => (h, { cpy with liquidState := v })
  | .setTemperatureUnit v => (h, { cpy with temperatureUnit := v })
  | .setMugName v => (h, { cpy with mugName := v })
  | .setColorObject newRef => (h, { cpy with colorRef := newRef })
  | .setColorR v =>
      (heapSet h cpy.colorRef { h cpy.colorRef with r := v }, cpy)
  | .setColorG v =>
      (heapSet h cpy.colorRef { h cpy.colorRef with g := v }, cpy)
  | .setColorB v =>
      (heapSet h cpy.colorRef { h cpy.colorRef with b := v }, cpy)
  | .setColorA v =>
      (heapSet h cpy.colorRef { h cpy.colorRef with a := v }, cpy)

/-- A whole sequence of caller mutations on the returned copy. -/
def applyMutations (hm : Heap × StateRec) (mus : List CopyMutation) :
    Heap × StateRec :=
  mus.foldl applyMutation hm

end EmberMug

namespace EmberMock

open EmberMug (RGBColor jsRound)

/-!
## The device simulator (`MockBluetoothManager`)

Embedding of the mock manager's state and of every operation that can
touch it. JavaScript numbers are again exact rationals.
-/

/-- `BATTERY_DRAIN_RATE_HEATING` (% per minute). -/
def BATTERY_DRAIN_RATE_HEATING : ℚ := 1 / 2

/-- `BATTERY_DRAIN_RATE_MAINTAINING` (% per minute). -/
def BATTERY_DRAIN_RATE_MAINTAINING : ℚ := 1 / 5

/-- `BATTERY_CHARGE_RATE` (% per minute). -/
def BATTERY_CHARGE_RATE : ℚ := 3 / 2

/-- The mock manager's `MugState`; the simulator holds fractional battery
levels, so `batteryLevel` is a rational here. Liquid states are the raw
enum values (`Empty = 1, Filling = 2, Cooling = 4, Heating = 5,
StableTemperature = 6`). -/
structure MockState where
  connected : Bool
  batteryLevel : ℚ
  isCharging : Bool
  currentTemp : ℚ
  targetTemp : ℚ
  liquidState : ℕ
  temperatureUnit : ℕ
  color : RGBColor
  mugName : String
deriving DecidableEq, Repr

/-- The state built by the `MockBluetoothManager` constructor from the
(merged) config: initial battery, charging flag, temperatures and liquid
state come from the config; unit is Celsius, color the default ember
orange, name empty. -/
def mkInitialState (initialBattery : ℚ) (initiallyCharging : Bool)
    (initialCurrentTemp initialTargetTemp : ℚ) (initialLiquidState : ℕ) :
    MockState :=
  { connected := false
    batteryLevel := initialBattery
    isCharging := initiallyCharging
    currentTemp := initialCurrentTemp
    targetTemp := initialTargetTemp
    liquidState := initialLiquidState
    temperatureUnit := 0
    color := { r := 255, g := 147, b := 41, a := 255 }
    mugName := "" }

/-- `Math.sign`. -/
def jsSign (q : ℚ) : ℚ :=
  if 0 < q then 1 else if q < 0 then -1 else 0

/-- `Math.round(x * 100) / 100`: round to two decimal places. -/
def roundTo2 (q : ℚ) : ℚ := (jsRound (q * 100) : ℚ) / 100

/-- The temperature/liquid-state section of `updateSimulation`: when the
mug is not empty, move `currentTemp` toward `targetTemp` by at most
`tempChangeRate * deltaSeconds` degrees and update the liquid state from
the direction of the remaining difference (stable when within 0.1°). -/
def updateSimTemp (tempChangeRate deltaSeconds : ℚ) (s : MockState) :
    MockState :=
  if s.liquidState ≠ 1 then
    let tempDiff := s.targetTemp - s.currentTemp
    let maxChange := tempChangeRate * deltaSeconds
    if |tempDiff| > 1 / 10 then
      let change := jsSign tempDiff * min |tempDiff| maxChange
      let s' := { s with currentTemp := roundTo2 (s.currentTemp + change) }
      if tempDiff > 1 / 2 then
        if s'.liquidState ≠ 5 then { s' with liquidState := 5 } else s'
      else if tempDiff < -(1 / 2) then
        if s'.liquidState ≠ 4 then { s' with liquidState := 4 } else s'
      else s'
    else
      if s.liquidState ≠ 6 then { s with liquidState := 6 } else s
  else s

/-- The battery section of `updateSimulation`, run on the state the
temperature section produced: charging gains are capped at 100
(`Math.min(100, ...)`), drains while heating or maintaining are floored
at 0 (`Math.max(0, ...)`). -/
def updateSimBattery (deltaSeconds : ℚ) (s : MockState) : MockState :=
  if s.isCharging then
    let chargeGain := BATTERY_CHARGE_RATE / 60 * deltaSeconds
    { s with batteryLevel := min 100 (s.batteryLevel + chargeGain) }
  else if s.liquidState = 5 then
    let drain := BATTERY_DRAIN_RATE_HEATING / 60 * deltaSeconds
    { s with batteryLevel := max 0 (s.batteryLevel - drain) }
  else if s.liquidState = 6 then
    let drain := BATTERY_DRAIN_RATE_MAINTAINING / 60 * deltaSeconds
    { s with batteryLevel := max 0 (s.batteryLevel - drain) }
  else s

/-- `updateSimulation(deltaSeconds)` (`MockBluetoothManager`): the
temperature/liquid section followed by the battery section, which reads
the liquid state the first section just wrote. -/
def updateSimulation (tempChangeRate deltaSeconds : ℚ) (s : MockState) :
    MockState :=
  updateSimBattery deltaSeconds (updateSimTemp tempChangeRate deltaSeconds s)

/-- `simulateBatteryLevel(level)`: clamps its argument into `[0, 100]`
(`Math.max(0, Math.min(100, level))`). -/
def simulateBatteryLevel (level : ℚ) (s : MockState) : MockState :=
  { s with batteryLevel := max 0 (min 100 level) }

/-- Every operation of `MockBluetoothManager` that can touch the state.
`update` is one simulation tick (its `deltaSeconds` comes from a monotone
clock, hence nonnegative in any real run); `fillSettle` is the delayed
transition `simulateFill` schedules. -/
inductive MockOp where
  | update (tempChangeRate deltaSeconds : ℚ)
  | connect (name : String)
  | setTargetTemp (t : ℚ)
  | setTemperatureUnit (u : ℕ)
  | setLedColor (c : RGBColor)
  | startCharging
  | stopCharging
  | simulateEmpty
  | simulateFill (temperature : ℚ)
  | fillSettle
  | simulateBattery (level : ℚ)
  | disconnect

/-- Apply one mock operation, each clause transcribing the corresponding
method of `MockBluetoothManager`. -/
def applyMockOp (s : MockState) : MockOp → MockState
  | .update rate delta => updateSimulation rate delta s
  | .connect name => { s with connected := true, mugName := name }
  | .setTargetTemp t =>
      let clampedTemp := max EmberMug.MIN_TEMP_CELSIUS (min EmberMug.MAX_TEMP_CELSIUS t)
      { s with targetTemp := clampedTemp }
  | .setTemperatureUnit u => { s with temperatureUnit := u }
  | .setLedColor c => { s with color := c }
  | .startCharging => { s with isCharging := true }
  | .stopCharging => { s with isCharging := false }
  | .simulateEmpty => { s with liquidState := 1, currentTemp := 0 }
  | .simulateFill temperature =>
      { s with currentTemp := temperature, liquidState := 2 }
  | .fillSettle =>
      if s.currentTemp < s.targetTemp then { s with liquidState := 5 }
      else if s.targetTemp < s.currentTemp then { s with liquidState := 4 }
      else { s with liquidState := 6 }
  | .simulateBattery level => simulateBatteryLevel level s
  | .disconnect =>
      if s.connected then { s with connected := false } else s

/-- Run a sequence of mock operations. -/
def runMockOps (s : MockState) (ops : List MockOp) : MockState :=
  ops.foldl applyMockOp s

/-- An operation is admissible in a real run when its simulation-tick
delta is nonnegative — `deltaSeconds = (now - lastUpdateTime) / 1000`
with a monotone clock. Every other operation is unconditionally
admissible. -/
def MockOp.valid : MockOp → Prop
  | .update _ delta => 0 ≤ delta
  | _ => True

instance : DecidablePred MockOp.valid := by
  intro op
  cases op <;> simp [MockOp.valid] <;> infer_instance

end EmberMock

namespace EmberMug

/-! ## Concrete devices used in the theorems below -/

/-- A device exposing no readable characteristics at all. -/
def silentDevice : Device :=
  { hasChar := fun _ => false
    read := fun _ => none
    writeOk := fun _ _ => false }

/-- A paired-but-never-enrolled device: every characteristic is present
and the stored secret keys (DSK and UDSK) read back as all zeros. -/
def zeroKeyDevice : Device :=
  { hasChar := fun _ => true
    writeOk := fun _ _ => true
    read := fun c =>
      match c with
      | .dsk => some (List.replicate 32 0)
      | .udsk => some (List.replicate 32 0)
      | _ => none }

/-- A device answering a liquid-state read with the unrecognized byte 9
and a temperature-unit read with the unrecognized byte 7. -/
def strayByteDevice : Device :=
  { hasChar := fun _ => true
    writeOk := fun _ _ => true
    read := fun c =>
      match c with
      | .liquidState => some [9]
      | .tempUnit => some [7]
      | _ => none }

/-- A device whose target-temperature characteristic reads back the bytes
of 55.00 °C (5500 as little-endian uint16) — a device that applied a
55 °C write. -/
def echoTargetDevice : Device :=
  { hasChar := fun _ => true
    writeOk := fun _ _ => true
    read := fun c =>
      if c = .targetTemp then some [124, 21] else none }

/-! ## Claim theorems -/

/-- Claim C3: the temperature codec round-trips exactly: for every
temperature representable as a 0.01 °C step in the uint16 range
(`x = n / 100`, `n ≤ 65535`), decoding (`readUInt16LE(0) * 0.01`, from
`readTargetTemp`) the encoding (`Math.round(x * 100)` written little-endian,
from `setTargetTemp`) gives back exactly `x`; and 55.00 °C encodes to the
bytes `[0x7C, 0x15]` (5500 as little-endian uint16). Numbers are modelled
as exact rationals. -/
theorem tempCodec_roundtrip :
    (∀ n : ℕ, n ≤ 65535 →
        decodeTemp (encodeTempBytes ((n : ℚ) / 100)) = (n : ℚ) / 100) ∧
    encodeTempBytes 55 = [0x7C, 0x15] := by
  constructor
  · intro n hn
    have h1 : ((n : ℚ) / 100) * 100 = (n : ℚ) := by field_simp
    have hfloor : ⌊(n : ℚ) + 1 / 2⌋ = (n : ℤ) := by
      rw [Int.floor_eq_iff]
      constructor
      · push_cast; linarith
      · push_cast; linarith
    have hv : (jsRound (((n : ℚ) / 100) * 100)).toNat = n := by
      rw [h1]; unfold jsRound; rw [hfloor]; exact Int.toNat_natCast n
    have hdiv : n / 256 % 256 = n / 256 := by omega
    have key : n % 256 + 256 * (n / 256) = n := by omega
    simp only [encodeTempBytes, hv, decodeTemp, readUInt16LE,
      List.getD_cons_zero, List.getD_cons_succ, hdiv]
    rw [key]
    ring
  · have hfloor : ⌊(55 : ℚ) * 100 + 1 / 2⌋ = (5500 : ℤ) := by
      rw [Int.floor_eq_iff]; norm_num
    simp only [encodeTempBytes, jsRound, hfloor]
    decide

/-- Witness for C3: the round-trip theorem applied at `n = 5500`
(55.00 °C). -/
theorem tempCodec_roundtrip_witness :
    decodeTemp (encodeTempBytes ((5500 : ℕ) / 100 : ℚ)) =
      ((5500 : ℕ) : ℚ) / 100 :=
  tempCodec_roundtrip.1 5500 (by norm_num)

/-- Claim C5: `connectWithRetry` with `maxRetries = 3` and every `connect()`
attempt failing makes the three attempts sequentially, waits
`2^(attempt-1)` seconds between failed attempts — 1000 ms after the first
failure and 2000 ms after the second — and emits exactly one terminal
`error` event, never one per attempt. -/
theorem connectWithRetry_three_failures :
    connectWithRetry 3 (fun _ => false) =
      { attemptsMade := 3, delays := [1000, 2000], errorsEmitted := 1,
        success := false } := by
  decide

/-- Claim C9: for every notification payload whose first byte is not a
recognized event code (`{1, 2, 3, 4, 5, 8}`), dispatching the push event
mutates no state field and performs no action at all; the handler is a
total function, defined for every byte value and for the empty payload
(whose `data[0]` is `undefined` in JavaScript and matches no case). -/
theorem handlePushEvent_unrecognized_noop
    (payload : List ℕ) (s : MugState) (d : Device)
    (h : payload.head?.getD 0 ∉ recognizedPushCodes) :
    handlePushEvent payload s d = (s, []) := by
  unfold handlePushEvent
  split
  all_goals first
    | rfl
    | (rename_i heq
       rw [heq] at h
       simp [recognizedPushCodes] at h)

/-- Witness for C9: the unrecognized code 7 against a device with nothing
readable leaves the initial state untouched and performs nothing. -/
theorem handlePushEvent_unrecognized_noop_witness :
    handlePushEvent [7] initialState silentDevice = (initialState, []) :=
  handlePushEvent_unrecognized_noop [7] initialState silentDevice (by decide)

/-- Counterexample to C1 as stated: against a device whose stored secret
keys (DSK and UDSK) read back as all zeros — the case in which the claimed
enable sequence would "generate and write a fresh random key" — the
connection-setup pairing step performs no characteristic write at all, and
its resulting state is the unchanged initial state (so no read-only mode is
entered either; indeed the state has no such flag). -/
theorem attemptPairing_zero_key_no_write :
    writesOf (attemptPairing initialState zeroKeyDevice).2 = [] ∧
    (attemptPairing initialState zeroKeyDevice).1 = initialState := by
  constructor
  · rfl
  · rfl

/-- Claim C1 as amended: the pairing step of connection setup is
read-only and best-effort. For every state and device it performs exactly
the trace "read mug name, read DSK, read UDSK, sleep 500 ms", contains no
write, and changes at most the stored mug name. There is no secret-key
write, no zero-key check, and no read-only downgrade. -/
theorem attemptPairing_only_reads (s : MugState) (d : Device) :
    (attemptPairing s d).2 =
      [.readChar .mugName, .readChar .dsk, .readChar .udsk, .sleep 500] ∧
    writesOf (attemptPairing s d).2 = [] ∧
    (attemptPairing s d).1 = { s with mugName := (attemptPairing s d).1.mugName } := by
  refine ⟨rfl, rfl, ?_⟩
  unfold attemptPairing
  rcases h : readCharacteristic d .mugName with _ | data
  · simp
  · simp only
    split
    · rfl
    · rfl

/-- Counterexample to C6 as stated: the temperature-unit characteristic is
not validated against the known-value set `{0, 1}`. Reading the
unrecognized raw byte 7 overwrites the stored unit (initially 0, Celsius)
with 7 instead of leaving it unchanged. -/
theorem readTemperatureUnit_unvalidated :
    (readTemperatureUnit initialState strayByteDevice).1 =
      { initialState with temperatureUnit := 7 } ∧
    initialState.temperatureUnit ≠ 7 := by
  constructor
  · rfl
  · decide

/-- Claim C6 as amended: for single-byte payloads, the liquid-state read
applies the byte only when it is in the known-value set `{1, 2, 4, 5, 6}`
and otherwise leaves the stored field unchanged without raising an error
(the read functions are total and never throw); the temperature-unit read,
however, stores any raw byte unconditionally, with no known-value check. -/
theorem byteField_validation (s : MugState) (d : Device) (b : ℕ) :
    (readCharacteristic d .liquidState = some [b] →
      (b ∈ liquidStateValues →
        (readLiquidState s d).1 = { s with liquidState := b }) ∧
      (b ∉ liquidStateValues → (readLiquidState s d).1 = s)) ∧
    (readCharacteristic d .tempUnit = some [b] →
      (readTemperatureUnit s d).1 = { s with temperatureUnit := b }) := by
  constructor
  · intro h
    constructor
    · intro hb
      simp [readLiquidState, h, hb]
    · intro hb
      simp [readLiquidState, h, hb]
  · intro h
    simp [readTemperatureUnit, h]

/-- Witness for the amended C6: the device answering liquid-state reads
with the unknown byte 9 and unit reads with the byte 7 leaves the liquid
state untouched but has its stray unit byte stored. -/
theorem byteField_validation_witness :
    (readLiquidState initialState strayByteDevice).1 = initialState ∧
    (readTemperatureUnit initialState strayByteDevice).1 =
      { initialState with temperatureUnit := 7 } :=
  ⟨((byteField_validation initialState strayByteDevice 9).1 rfl).2 (by decide),
   (byteField_validation initialState strayByteDevice 7).2 rfl⟩

/-- Counterexample to C7 as stated: the recognized push-event code 2
("started charging") performs no targeted re-read at all — its read trace
is empty — yet it does mutate the state (the charging flag flips), so not
every recognized code maps to exactly one re-read. -/
theorem pushEvent_code2_no_reread :
    readsOf (handlePushEvent [2] initialState silentDevice).2 = [] ∧
    (handlePushEvent [2] initialState silentDevice).1 ≠ initialState := by
  constructor
  · rfl
  · decide

/-- Helper: `readBattery` reads exactly the battery characteristic and
touches at most the battery level and charging flag. -/
theorem readBattery_targeted (s : MugState) (d : Device) :
    readsOf (readBattery s d).2 = [CharId.battery] ∧
    (readBattery s d).1 = { s with
      batteryLevel := (readBattery s d).1.batteryLevel,
      isCharging := (readBattery s d).1.isCharging } := by
  unfold readBattery
  rcases h : readCharacteristic d .battery with _ | data
  · exact ⟨rfl, rfl⟩
  · simp only
    split
    · exact ⟨rfl, rfl⟩
    · exact ⟨rfl, rfl⟩

/-- Helper: `readTargetTemp` reads exactly the target-temperature
characteristic and touches at most the target temperature. -/
theorem readTargetTemp_targeted (s : MugState) (d : Device) :
    readsOf (readTargetTemp s d).2 = [CharId.targetTemp] ∧
    (readTargetTemp s d).1 = { s with
      targetTemp := (readTargetTemp s d).1.targetTemp } := by
  unfold readTargetTemp
  rcases h : readCharacteristic d .targetTemp with _ | data
  · exact ⟨rfl, rfl⟩
  · simp only
    split
    · exact ⟨rfl, rfl⟩
    · exact ⟨rfl, rfl⟩

/-- Helper: `readCurrentTemp` reads exactly the current-temperature
characteristic and touches at most the current temperature. -/
theorem readCurrentTemp_targeted (s : MugState) (d : Device) :
    readsOf (readCurrentTemp s d).2 = [CharId.currentTemp] ∧
    (readCurrentTemp s d).1 = { s with
      currentTemp := (readCurrentTemp s d).1.currentTemp } := by
  unfold readCurrentTemp
  rcases h : readCharacteristic d .currentTemp with _ | data
  · exact ⟨rfl, rfl⟩
  · simp only
    split
    · exact ⟨rfl, rfl⟩
    · exact ⟨rfl, rfl⟩

/-- Helper: `readLiquidState` reads exactly the liquid-state
characteristic and touches at most the liquid state. -/
theorem readLiquidState_targeted (s : MugState) (d : Device) :
    readsOf (readLiquidState s d).2 = [CharId.liquidState] ∧
    (readLiquidState s d).1 = { s with
      liquidState := (readLiquidState s d).1.liquidState } := by
  unfold readLiquidState
  rcases h : readCharacteristic d .liquidState with _ | data
  · exact ⟨rfl, rfl⟩
  · simp only
    split
    · split
      · exact ⟨rfl, rfl⟩
      · exact ⟨rfl, rfl⟩
    · exact ⟨rfl, rfl⟩

/-- Claim C7 as amended: the push-event codes that map to a re-read
(1 battery, 4 target temperature, 5 current temperature, 8 liquid state)
each perform exactly one targeted read of the single characteristic the
code maps to — never a bulk refresh — and modify no state field beyond the
ones decoded from that characteristic (for the battery characteristic,
the level and the charging flag). Codes 2 and 3, however, perform no read
at all and instead set the charging flag directly. -/
theorem handlePushEvent_targeted (s : MugState) (d : Device) :
    (readsOf (handlePushEvent [1] s d).2 = [CharId.battery] ∧
      (handlePushEvent [1] s d).1 = { s with
        batteryLevel := (handlePushEvent [1] s d).1.batteryLevel,
        isCharging := (handlePushEvent [1] s d).1.isCharging }) ∧
    (readsOf (handlePushEvent [4] s d).2 = [CharId.targetTemp] ∧
      (handlePushEvent [4] s d).1 = { s with
        targetTemp := (handlePushEvent [4] s d).1.targetTemp }) ∧
    (readsOf (handlePushEvent [5] s d).2 = [CharId.currentTemp] ∧
      (handlePushEvent [5] s d).1 = { s with
        currentTemp := (handlePushEvent [5] s d).1.currentTemp }) ∧
    (readsOf (handlePushEvent [8] s d).2 = [CharId.liquidState] ∧
      (handlePushEvent [8] s d).1 = { s with
        liquidState := (handlePushEvent [8] s d).1.liquidState }) ∧
    (readsOf (handlePushEvent [2] s d).2 = [] ∧
      (handlePushEvent [2] s d).1 = { s with isCharging := true }) ∧
    (readsOf (handlePushEvent [3] s d).2 = [] ∧
      (handlePushEvent [3] s d).1 = { s with isCharging := false }) :=
  ⟨readBattery_targeted s d, readTargetTemp_targeted s d,
   readCurrentTemp_targeted s d, readLiquidState_targeted s d,
   ⟨rfl, rfl⟩, ⟨rfl, rfl⟩⟩

/-- A call ended in a thrown error. -/
def throws {α : Type} (r : Except String α) : Prop :=
  match r with
  | .error _ => True
  | .ok _ => False

/-- Claim C4: against a device that never applies writes (its stored LED
color stays `c0`, every transport write is accepted), `setLedColor c`
raises the write-not-applied error exactly when the echoed red, green or
blue component differs from the requested one — the alpha component is
excluded from the comparison, so it can never succeed silently on a
change of the RGB components, while a request matching the stored RGB
(even with a different alpha) passes verification. -/
theorem setLedColor_writeNotApplied_iff (c c0 : RGBColor) (s : MugState) :
    throws (setLedColor c s (neverApplyDevice c0)) ↔
      (c0.r ≠ c.r ∨ c0.g ≠ c.g ∨ c0.b ≠ c.b) := by
  have hw : writeCharacteristic (neverApplyDevice c0) .ledColor
      [c.r, c.g, c.b, c.a] = .ok () := by
    simp [writeCharacteristic, neverApplyDevice]
  have hr : readLedColor s (neverApplyDevice c0) =
      ({ s with color := { r := c0.r, g := c0.g, b := c0.b, a := c0.a } },
       [.readChar .ledColor, .emitState]) := by
    simp [readLedColor, readCharacteristic, neverApplyDevice]
  simp only [setLedColor, hw, hr]
  by_cases h : c0.r ≠ c.r ∨ c0.g ≠ c.g ∨ c0.b ≠ c.b
  · rw [if_pos (by simpa using h)]
    simpa [throws] using h
  · rw [if_neg (by simpa using h)]
    simpa [throws] using h

/-- Claim C2: (1) whenever `setTargetTemp t` returns successfully, the
stored target temperature is within 0.5 °C of `clamp(t, 50, 63)` — the
per-command verification guard enforces exactly this bound, whatever the
device echoed; (2) `setTargetTemp 70` is extensionally identical to
`setTargetTemp 63` (the maximum) and (3) `setTargetTemp 10` to
`setTargetTemp 50` (the minimum), because the clamp maps the out-of-range
requests to the same value before anything else happens. -/
theorem setTargetTemp_clamped :
    (∀ (t : ℚ) (s : MugState) (d : Device) (s' : MugState) (ops : List Op),
        setTargetTemp t s d = .ok (s', ops) →
        |s'.targetTemp - clampTemp t| ≤ 1 / 2) ∧
    (∀ (s : MugState) (d : Device),
        setTargetTemp 70 s d = setTargetTemp 63 s d) ∧
    (∀ (s : MugState) (d : Device),
        setTargetTemp 10 s d = setTargetTemp 50 s d) := by
  refine ⟨?_, ?_, ?_⟩
  · intro t s d s' ops h
    rcases hw : writeCharacteristic d .targetTemp (encodeTempBytes (clampTemp t))
      with e | u
    · simp only [setTargetTemp, hw] at h
      exact absurd h (by simp)
    · rcases hr : readTargetTemp s d with ⟨s1, ops1⟩
      simp only [setTargetTemp, hw, hr] at h
      by_cases hc : |s1.targetTemp - clampTemp t| > 1 / 2
      · rw [if_pos hc] at h
        exact absurd h (by simp)
      · rw [if_neg hc] at h
        have hs : s1 = s' := by
          simpa using congrArg (fun r => (r.toOption.map Prod.fst).getD s1) h
        rw [← hs]
        linarith [not_lt.mp hc]
  · intro s d
    have hc : clampTemp 70 = clampTemp 63 := by
      unfold clampTemp MIN_TEMP_CELSIUS MAX_TEMP_CELSIUS
      norm_num
    unfold setTargetTemp
    rw [hc]
  · intro s d
    have hc : clampTemp 10 = clampTemp 50 := by
      unfold clampTemp MIN_TEMP_CELSIUS MAX_TEMP_CELSIUS
      rw [min_eq_right (by norm_num), min_eq_right (by norm_num),
        max_eq_left (by norm_num), max_eq_left (by norm_num)]
    unfold setTargetTemp
    rw [hc]

/-- Helper: evaluation of `setTargetTemp 55` against a device that applied
the write — the target-temperature characteristic echoes the bytes of
55.00 °C — succeeds and stores 55. -/
theorem setTargetTemp_55_eval :
    setTargetTemp 55 initialState echoTargetDevice =
      .ok ({ initialState with targetTemp := 55 },
           [.writeChar .targetTemp (encodeTempBytes (clampTemp 55)),
            .readChar .targetTemp, .emitState]) := by
  have hdec : decodeTemp [124, 21] = 55 := by
    norm_num [decodeTemp, readUInt16LE, List.getD_cons_zero, List.getD_cons_succ]
  have hr : readTargetTemp initialState echoTargetDevice =
      ({ initialState with targetTemp := 55 },
       [.readChar .targetTemp, .emitState]) := by
    rw [readTargetTemp]
    have : readCharacteristic echoTargetDevice .targetTemp = some [124, 21] := rfl
    rw [this]
    simp [hdec]
  have hcl : clampTemp 55 = 55 := by
    unfold clampTemp MIN_TEMP_CELSIUS MAX_TEMP_CELSIUS
    norm_num
  have hw : writeCharacteristic echoTargetDevice .targetTemp
      (encodeTempBytes (clampTemp 55)) = .ok () := by
    simp [writeCharacteristic, echoTargetDevice]
  simp only [setTargetTemp, hw, hr]
  rw [if_neg (by rw [hcl]; norm_num)]

/-- Witness for C2: the success bound applied to the concrete successful
call `setTargetTemp 55` against the echoing device. -/
theorem setTargetTemp_clamped_witness :
    |({ initialState with targetTemp := 55 } : MugState).targetTemp -
        clampTemp 55| ≤ 1 / 2 :=
  setTargetTemp_clamped.1 55 initialState echoTargetDevice
    { initialState with targetTemp := 55 }
    [.writeChar .targetTemp (encodeTempBytes (clampTemp 55)),
     .readChar .targetTemp, .emitState]
    setTargetTemp_55_eval

/-- A heap where every address holds the default white color. -/
def whiteHeap : Heap := fun _ => { r := 255, g := 255, b := 255, a := 255 }

/-- The manager's initial state at runtime, with its color object at heap
address 0. -/
def initialRep : StateRec :=
  { connected := false
    batteryLevel := 0
    isCharging := false
    currentTemp := 0
    targetTemp := 0
    liquidState := 1
    temperatureUnit := 0
    colorRef := 0
    mugName := "" }

/-- Counterexample to C8 as stated: `getState()`'s spread copy shares the
nested color object by reference, so the single caller mutation
`copy.color.r = 0` on the returned value changes the manager's observed
state — the internal state is not immune to every mutation sequence on
the copy. -/
theorem getState_color_aliasing :
    view (applyMutations (whiteHeap, getStateCopy initialRep)
        [CopyMutation.setColorR 0]).1 initialRep ≠
      view whiteHeap initialRep := by
  intro h
  have := congrArg (fun st => st.color.r) h
  simp [view, applyMutations, applyMutation, getStateCopy, heapSet,
    whiteHeap, initialRep, List.foldl] at this

/-- Helper: a mutation sequence that never writes a color component
through the copy's reference leaves the heap — and with it everything the
manager's record can observe — unchanged. -/
theorem applyMutations_heap_unchanged (mus : List CopyMutation) :
    ∀ (h : Heap) (cpy : StateRec),
      (∀ mu ∈ mus, mu.mutatesColorInPlace = false) →
      (applyMutations (h, cpy) mus).1 = h := by
  induction mus with
  | nil =>
      intro h cpy _
      rfl
  | cons mu rest ih =>
      intro h cpy hall
      have hmu := hall mu (List.mem_cons_self mu rest)
      have hrest := fun m hm => hall m (List.mem_cons_of_mem mu hm)
      have hstep : ∃ cpy', applyMutation (h, cpy) mu = (h, cpy') := by
        cases mu <;>
          first
            | exact ⟨_, rfl⟩
            | simp [CopyMutation.mutatesColorInPlace] at hmu
      obtain ⟨cpy', hcpy'⟩ := hstep
      calc (applyMutations (h, cpy) (mu :: rest)).1
          = (applyMutations (applyMutation (h, cpy) mu) rest).1 := rfl
        _ = (applyMutations (h, cpy') rest).1 := by rw [hcpy']
        _ = h := ih h cpy' hrest

/-- Claim C8 as amended: the spread copy `getState()` returns is
defensively copied at the top level only — any sequence of caller
mutations that assigns fields of the copy (including rebinding its
`color` field to another object) leaves the manager's observed state
unchanged; but the nested color object is shared by reference, so writing
a component through `copy.color` (excluded here and exhibited in the
counterexample) does reach the manager's state. -/
theorem getState_top_level_defensive (h : Heap) (m : StateRec)
    (mus : List CopyMutation)
    (hno : ∀ mu ∈ mus, mu.mutatesColorInPlace = false) :
    view (applyMutations (h, getStateCopy m) mus).1 m = view h m := by
  rw [applyMutations_heap_unchanged mus h (getStateCopy m) hno]

/-- Witness for the amended C8: overwriting the copy's target temperature
and rebinding its color field leaves the manager's observed state
unchanged. -/
theorem getState_top_level_defensive_witness :
    view (applyMutations (whiteHeap, getStateCopy initialRep)
        [CopyMutation.setTargetTemp 60, CopyMutation.setColorObject 5]).1
      initialRep =
      view whiteHeap initialRep :=
  getState_top_level_defensive whiteHeap initialRep
    [CopyMutation.setTargetTemp 60, CopyMutation.setColorObject 5]
    (by decide)

end EmberMug

namespace EmberMock

/-- Helper: the temperature/liquid section of a simulation tick never
touches the battery level. -/
theorem updateSimTemp_battery (rate delta : ℚ) (s : MockState) :
    (updateSimTemp rate delta s).batteryLevel = s.batteryLevel := by
  simp only [updateSimTemp]
  repeat' split
  all_goals rfl

/-- Helper: one mock operation keeps the battery level inside `[0, 100]`:
the tick's charging gain is capped at 100 and its drains floored at 0,
`simulateBatteryLevel` clamps, and no other operation touches the level. -/
theorem applyMockOp_battery_bounds (s : MockState) (op : MockOp)
    (hv : op.valid) (h0 : 0 ≤ s.batteryLevel) (h1 : s.batteryLevel ≤ 100) :
    0 ≤ (applyMockOp s op).batteryLevel ∧
      (applyMockOp s op).batteryLevel ≤ 100 := by
  cases op with
  | update rate delta =>
      have hd : (0 : ℚ) ≤ delta := hv
      have hb := updateSimTemp_battery rate delta s
      set t := updateSimTemp rate delta s with ht
      have h0' : 0 ≤ t.batteryLevel := by rw [hb]; exact h0
      have h1' : t.batteryLevel ≤ 100 := by rw [hb]; exact h1
      show 0 ≤ (updateSimBattery delta t).batteryLevel ∧
        (updateSimBattery delta t).batteryLevel ≤ 100
      unfold updateSimBattery
      split
      · refine ⟨?_, ?_⟩
        · show (0 : ℚ) ≤ min 100 (t.batteryLevel + BATTERY_CHARGE_RATE / 60 * delta)
          have hg : (0 : ℚ) ≤ BATTERY_CHARGE_RATE / 60 * delta :=
            mul_nonneg (by norm_num [BATTERY_CHARGE_RATE]) hd
          exact le_min (by norm_num) (by linarith)
        · show min (100 : ℚ) (t.batteryLevel + BATTERY_CHARGE_RATE / 60 * delta) ≤ 100
          exact min_le_left _ _
      · split
        · refine ⟨?_, ?_⟩
          · show (0 : ℚ) ≤
              max 0 (t.batteryLevel - BATTERY_DRAIN_RATE_HEATING / 60 * delta)
            exact le_max_left _ _
          · show max (0 : ℚ)
              (t.batteryLevel - BATTERY_DRAIN_RATE_HEATING / 60 * delta) ≤ 100
            have hg : (0 : ℚ) ≤ BATTERY_DRAIN_RATE_HEATING / 60 * delta :=
              mul_nonneg (by norm_num [BATTERY_DRAIN_RATE_HEATING]) hd
            exact max_le (by norm_num) (by linarith)
        · split
          · refine ⟨?_, ?_⟩
            · show (0 : ℚ) ≤
                max 0 (t.batteryLevel - BATTERY_DRAIN_RATE_MAINTAINING / 60 * delta)
              exact le_max_left _ _
            · show max (0 : ℚ)
                (t.batteryLevel - BATTERY_DRAIN_RATE_MAINTAINING / 60 * delta) ≤ 100
              have hg : (0 : ℚ) ≤ BATTERY_DRAIN_RATE_MAINTAINING / 60 * delta :=
                mul_nonneg (by norm_num [BATTERY_DRAIN_RATE_MAINTAINING]) hd
              exact max_le (by norm_num) (by linarith)
          · exact ⟨h0', h1'⟩
  | connect name => exact ⟨h0, h1⟩
  | setTargetTemp t => exact ⟨h0, h1⟩
  | setTemperatureUnit u => exact ⟨h0, h1⟩
  | setLedColor c => exact ⟨h0, h1⟩
  | startCharging => exact ⟨h0, h1⟩
  | stopCharging => exact ⟨h0, h1⟩
  | simulateEmpty => exact ⟨h0, h1⟩
  | simulateFill temperature => exact ⟨h0, h1⟩
  | fillSettle =>
      simp only [applyMockOp]
      repeat' split
      all_goals exact ⟨h0, h1⟩
  | simulateBattery level =>
      refine ⟨?_, ?_⟩
      · show (0 : ℚ) ≤ max 0 (min 100 level)
        exact le_max_left _ _
      · show max (0 : ℚ) (min 100 level) ≤ 100
        exact max_le (by norm_num) (min_le_left _ _)
  | disconnect =>
      simp only [applyMockOp]
      split
      · exact ⟨h0, h1⟩
      · exact ⟨h0, h1⟩

/-- Claim C10: starting from an initial battery level in `[0, 100]` (as
the mock constructor's config provides), the invariant
`0 ≤ batteryLevel ≤ 100` is preserved by every sequence of simulator
operations — simulation ticks (with the nonnegative clock deltas a real
run produces), connection changes, setters, scenario helpers and
`simulateBatteryLevel`, whose argument is clamped into `[0, 100]` — so no
reachable state has a battery level outside the range. -/
theorem mock_battery_invariant (init : MockState) (ops : List MockOp)
    (h0 : 0 ≤ init.batteryLevel) (h1 : init.batteryLevel ≤ 100)
    (hv : ∀ op ∈ ops, op.valid) :
    0 ≤ (runMockOps init ops).batteryLevel ∧
      (runMockOps init ops).batteryLevel ≤ 100 := by
  induction ops generalizing init with
  | nil => exact ⟨h0, h1⟩
  | cons op rest ih =>
      have hop := applyMockOp_battery_bounds init op
        (hv op (List.mem_cons_self op rest)) h0 h1
      exact ih (applyMockOp init op) hop.1 hop.2
        (fun o ho => hv o (List.mem_cons_of_mem op ho))

/-- Witness for C10: from the default initial battery of 75, one
simulation tick of one second followed by `simulateBatteryLevel 150`
(an out-of-range request, clamped) stays within `[0, 100]`. -/
theorem mock_battery_invariant_witness :
    0 ≤ (runMockOps (mkInitialState 75 false 45 55 4)
        [MockOp.update (1 / 2) 1, MockOp.simulateBattery 150]).batteryLevel ∧
      (runMockOps (mkInitialState 75 false 45 55 4)
        [MockOp.update (1 / 2) 1, MockOp.simulateBattery 150]).batteryLevel ≤ 100 :=
  mock_battery_invariant (mkInitialState 75 false 45 55 4)
    [MockOp.update (1 / 2) 1, MockOp.simulateBattery 150]
    (by norm_num [mkInitialState])
    (by norm_num [mkInitialState])
    (by
      intro op hop
      rcases List.mem_cons.mp hop with rfl | hop2
      · show (0 : ℚ) ≤ 1
        norm_num
      · rcases List.mem_cons.mp hop2 with rfl | h3
        · trivial
        · cases h3)

end EmberMock
